import Mathlib

/-!
A shallow embedding, over exact rational arithmetic, of the HSLuv colour
conversion library (`src/hise-hsluv-package/HSLuv.js`) and of the palette
generator script built on top of it (`src/unnamed/part_000`).

Transcendental primitives of the host `Math` API (sin, cos, atan, sqrt and
`pow` with a fractional exponent) are abstract parameters collected in the
structure `Prims`; every other arithmetic step of the source is translated
literally over `ℚ`.  `Math.pow` with the literal exponent `3` is translated
as an exact cube.  `sanitize` is the identity here because NaN and Infinity
do not exist in exact rational arithmetic; where an IEEE division by zero
would produce an Infinity or NaN that the source's comparisons then discard,
the embedding models the discard explicitly (see `maxChromaForLH`).
-/

namespace HSLuv

/-- Abstract numeric primitives of the host `Math` API.  The conversion code
only ever consumes them pointwise, so they are modelled as unknown functions
on `ℚ`; theorems that need facts about them (such as the range of `atan`)
take those facts as explicit hypotheses. -/
structure Prims where
  sinQ : ℚ → ℚ
  cosQ : ℚ → ℚ
  atanQ : ℚ → ℚ
  sqrtQ : ℚ → ℚ
  powQ : ℚ → ℚ → ℚ

/-- A device RGB colour, one field per channel (source: a 3-element array). -/
structure RGB where
  r : ℚ
  g : ℚ
  b : ℚ
deriving DecidableEq

/-- A device RGBA vector, as produced by `toVec4` / `Colours.toVec4`. -/
structure RGBA where
  r : ℚ
  g : ℚ
  b : ℚ
  a : ℚ
deriving DecidableEq

/-- Tristimulus XYZ (source: a 3-element array `[X, Y, Z]`). -/
structure XYZ where
  x : ℚ
  y : ℚ
  z : ℚ
deriving DecidableEq

/-- CIE Luv (source: a 3-element array `[L, u, v]`). -/
structure LUV where
  L : ℚ
  u : ℚ
  v : ℚ
deriving DecidableEq

/-- Cylindrical LCh (source: a 3-element array `[L, C, H]`). -/
structure LCH where
  L : ℚ
  C : ℚ
  H : ℚ
deriving DecidableEq

/-- An HSLuv colour (source: a 3-element array `[H, S, L]`). -/
structure HSL where
  H : ℚ
  S : ℚ
  L : ℚ
deriving DecidableEq

-- Constants (D65 / transforms), HSLuv.js lines 57-82.
def REF_X : ℚ := 0.95047
def REF_Y : ℚ := 1.0
def REF_Z : ℚ := 1.08883
def M00 : ℚ := 3.2404542
def M01 : ℚ := -1.5371385
def M02 : ℚ := -0.4985314
def M10 : ℚ := -0.9692660
def M11 : ℚ := 1.8760108
def M12 : ℚ := 0.0415560
def M20 : ℚ := 0.0556434
def M21 : ℚ := -0.2040259
def M22 : ℚ := 1.0572252
def PI : ℚ := 3.141592653589793
def EPS : ℚ := 1 / 10 ^ 10
def K : ℚ := 903.2962962
def E : ℚ := 0.0088564516

/-- `sanitize` (HSLuv.js lines 91-95) replaces NaN/Infinity with `0.0`.
Over exact rationals non-finite values cannot arise, so it is the
identity. -/
def sanitize (v : ℚ) : ℚ := v

/-- `clamp01` (HSLuv.js lines 100-104). -/
def clamp01 (v : ℚ) : ℚ := if v < 0 then 0 else if v > 1 then 1 else v

/-- HISE `Math.range(v, lo, hi)`: clamp `v` into `[lo, hi]`. -/
def mathRange (v lo hi : ℚ) : ℚ := if v < lo then lo else if v > hi then hi else v

/-- HISE `Math.toRadians`, using the source's `PI` constant. -/
def toRadians (d : ℚ) : ℚ := d * PI / 180

/-- HISE `Math.toDegrees`, using the source's `PI` constant. -/
def toDegrees (r : ℚ) : ℚ := r * 180 / PI

/-- `myAtan2` (HSLuv.js lines 109-129): a hand-rolled atan2 with explicit
quadrant and axis cases, falling through to `0` when `x = 0` and `y = 0`. -/
def myAtan2 (P : Prims) (yIn xIn : ℚ) : ℚ :=
  let y := sanitize yIn
  let x := sanitize xIn
  if 0 < x then P.atanQ (y / x)
  else if x < 0 ∧ 0 ≤ y then P.atanQ (y / x) + PI
  else if x < 0 ∧ y < 0 then P.atanQ (y / x) - PI
  else if x = 0 ∧ 0 < y then PI / 2
  else if x = 0 ∧ y < 0 then -(PI / 2)
  else 0

/-- `srgbCompanding` (HSLuv.js lines 138-144): linear -> sRGB. -/
def srgbCompanding (P : Prims) (c : ℚ) : ℚ :=
  let cs := sanitize c
  if cs ≤ 0.0031308 then 12.92 * cs
  else 1.055 * P.powQ cs (1 / 2.4) - 0.055

/-- `srgbInverseCompanding` (HSLuv.js lines 150-156): sRGB -> linear, the
input being clamped to `[0,1]` first. -/
def srgbInverseCompanding (P : Prims) (c : ℚ) : ℚ :=
  let cs := mathRange (sanitize c) 0 1
  if cs ≤ 0.04045 then cs / 12.92
  else P.powQ ((cs + 0.055) / 1.055) 2.4

/-- `pushLine_safe` (HSLuv.js lines 161-192): returns the `(slope,
intercept)` of one gamut boundary line, or `none` when a denominator is
degenerate.  The final `isnan`/`isinf` check of the source can never fire
over `ℚ`. -/
def pushLine_safe (mc0 mc1 mc2 L t : ℚ) : Option (ℚ × ℚ) :=
  let mc0s := sanitize mc0
  let mc1s := sanitize mc1
  let mc2s := sanitize mc2
  let Ls := sanitize L
  let ts := sanitize t
  let sub1 := ((Ls + 16) / 116) ^ 3
  let sub2 := sanitize (if sub1 > E then sub1 else Ls / K)
  if |sub2| < EPS then none
  else
    let top1 := (284517 * mc0s - 94839 * mc2s) * sub2
    let top2 := (838422 * mc2s + 769860 * mc1s + 731718 * mc0s) * sub2 * Ls -
      769860 * ts * Ls
    let bottom := sanitize ((632260 * mc2s - 126452 * mc1s) * sub2 + 126452 * ts)
    if |bottom| < EPS then none
    else some (sanitize (top1 / bottom), sanitize (top2 / bottom))

/-- The fixed 3x3 coefficient matrix of `getBounds` (HSLuv.js lines 206-211). -/
def gamutM : List (ℚ × ℚ × ℚ) :=
  [(3.240969941904521, -1.537383177570093, -0.498610760293),
   (-0.96924363628087, 1.87596750150772, 0.041555057407175),
   (0.055630079696993, -0.20397695888897, 1.056971514242878)]

/-- `getBounds` (HSLuv.js lines 199-228): for each coefficient row, the
`t = 0` line then the `t = 1` line, skipping the degenerate ones. -/
def getBounds (L : ℚ) : List (ℚ × ℚ) :=
  gamutM.flatMap fun row =>
    ([pushLine_safe row.1 row.2.1 row.2.2 L 0,
      pushLine_safe row.1 row.2.1 row.2.2 L 1]).filterMap id

/-- One iteration of the `maxChromaForLH` loop (HSLuv.js lines 240-248):
`length = intercept / (sin hRad - slope * cos hRad)` is adopted when
`0 ≤ length < minLength`.  When the denominator is zero the source's IEEE
division yields an Infinity or NaN which that comparison always rejects,
so the accumulator is kept unchanged in that case. -/
def chromaStep (P : Prims) (hRad minLength : ℚ) (line : ℚ × ℚ) : ℚ :=
  let den := P.sinQ hRad - line.1 * P.cosQ hRad
  if den = 0 then minLength
  else if 0 ≤ line.2 / den ∧ line.2 / den < minLength then line.2 / den
  else minLength

/-- `maxChromaForLH` (HSLuv.js lines 235-251): minimum non-negative ray
intersection length over the boundary lines, starting from the `1e10`
sentinel. -/
def maxChromaForLH (P : Prims) (L H : ℚ) : ℚ :=
  (getBounds L).foldl (chromaStep P (toRadians H)) (10 ^ 10)

/-- `hsluvToLch` (HSLuv.js lines 262-283). -/
def hsluvToLch (P : Prims) (c : HSL) : LCH :=
  let H := sanitize c.H
  let S := sanitize c.S
  let L := sanitize c.L
  if L < EPS ∨ L > 99.99999 then ⟨L, 0, H⟩
  else
    let maxC := maxChromaForLH P L H
    if maxC ≤ EPS then ⟨L, 0, H⟩
    else
      let Sat := mathRange S 0 100
      ⟨L, sanitize (maxC * (Sat / 100)), H⟩

/-- `lchToLuv` (HSLuv.js lines 288-302). -/
def lchToLuv (P : Prims) (c : LCH) : LUV :=
  let L := sanitize c.L
  let C := sanitize c.C
  let Hrad := toRadians (sanitize c.H)
  ⟨L, sanitize (C * P.cosQ Hrad), sanitize (C * P.sinQ Hrad)⟩

/-- `luvToXyz` (HSLuv.js lines 307-342). -/
def luvToXyz (c : LUV) : XYZ :=
  let L := sanitize c.L
  let u := sanitize c.u
  let v := sanitize c.v
  let Y := if L ≤ 8 then L * REF_Y / 903.3 else ((L + 16) / 116) ^ 3 * REF_Y
  let Uref := 4 * REF_X / (REF_X + 15 * REF_Y + 3 * REF_Z)
  let Vref := 9 * REF_Y / (REF_X + 15 * REF_Y + 3 * REF_Z)
  let U := if L < EPS then Uref else u / (13 * L) + Uref
  let V := if L < EPS then Vref else v / (13 * L) + Vref
  let denom := if |4 * V| < EPS then EPS else 4 * V
  ⟨Y * 9 * U / denom, Y, Y * (12 - 3 * U - 20 * V) / denom⟩

/-- `xyzToRgb` (HSLuv.js lines 347-365). -/
def xyzToRgb (P : Prims) (c : XYZ) : RGB :=
  let x := sanitize c.x
  let y := sanitize c.y
  let z := sanitize c.z
  ⟨clamp01 (sanitize (srgbCompanding P (x * M00 + y * M01 + z * M02))),
   clamp01 (sanitize (srgbCompanding P (x * M10 + y * M11 + z * M12))),
   clamp01 (sanitize (srgbCompanding P (x * M20 + y * M21 + z * M22)))⟩

/-- `rgbToXyz` (HSLuv.js lines 375-393). -/
def rgbToXyz (P : Prims) (c : RGB) : XYZ :=
  let R := srgbInverseCompanding P (sanitize c.r)
  let G := srgbInverseCompanding P (sanitize c.g)
  let B := srgbInverseCompanding P (sanitize c.b)
  ⟨sanitize (R * 0.4124564 + G * 0.3575761 + B * 0.1804375),
   sanitize (R * 0.2126729 + G * 0.7151522 + B * 0.0721750),
   sanitize (R * 0.0193339 + G * 0.1191920 + B * 0.9503041)⟩

/-- `xyzToLuv` (HSLuv.js lines 399-434). -/
def xyzToLuv (P : Prims) (c : XYZ) : LUV :=
  let x := sanitize c.x
  let y := sanitize c.y
  let z := sanitize c.z
  let denom := x + 15 * y + 3 * z
  if |denom| < EPS then ⟨0, 0, 0⟩
  else
    let Yr := y / REF_Y
    let L := if Yr > E then 116 * P.powQ Yr (1 / 3) - 16 else K * Yr
    let U_ := 4 * x / denom
    let V_ := 9 * y / denom
    let Uref := 4 * REF_X / (REF_X + 15 * REF_Y + 3 * REF_Z)
    let Vref := 9 * REF_Y / (REF_X + 15 * REF_Y + 3 * REF_Z)
    ⟨sanitize L, sanitize (13 * L * (U_ - Uref)), sanitize (13 * L * (V_ - Vref))⟩

/-- `luvToLch` (HSLuv.js lines 440-457). -/
def luvToLch (P : Prims) (c : LUV) : LCH :=
  let L := sanitize c.L
  let u := sanitize c.u
  let v := sanitize c.v
  let C := sanitize (P.sqrtQ (u * u + v * v))
  let Hdeg := toDegrees (myAtan2 P v u)
  ⟨L, C, sanitize (if Hdeg < 0 then Hdeg + 360 else Hdeg)⟩

/-- `lchToHsluv` (HSLuv.js lines 462-480). -/
def lchToHsluv (P : Prims) (c : LCH) : HSL :=
  if c.L < EPS ∨ c.L > 99.99999 then ⟨c.H, 0, c.L⟩
  else
    let maxC := maxChromaForLH P c.L c.H
    if maxC ≤ EPS then ⟨c.H, 0, c.L⟩
    else ⟨c.H, mathRange (sanitize (c.C / maxC * 100)) 0 100, c.L⟩

/-- `hsluvToRgb` (HSLuv.js lines 491-505): the four forward stages. -/
def hsluvToRgb (P : Prims) (c : HSL) : RGB :=
  xyzToRgb P (luvToXyz (lchToLuv P (hsluvToLch P c)))

/-- `rgbToHsluv` (HSLuv.js lines 511-525): the four backward stages. -/
def rgbToHsluv (P : Prims) (c : RGB) : HSL :=
  lchToHsluv P (luvToLch P (xyzToLuv P (rgbToXyz P c)))

/-- `toVec4` (HSLuv.js lines 536-541). -/
def toVec4 (P : Prims) (c : HSL) : RGBA :=
  ⟨(hsluvToRgb P c).r, (hsluvToRgb P c).g, (hsluvToRgb P c).b, 1⟩

/-- `fromVec4` (HSLuv.js lines 598-604). -/
def fromVec4 (P : Prims) (v : RGBA) : HSL :=
  rgbToHsluv P ⟨sanitize v.r, sanitize v.g, sanitize v.b⟩

/-- `fromColour` (HSLuv.js lines 610-630).  The source first unpacks a
packed uint32 colour into an `[r,g,b,a]` vector through the external HISE
API `Colours.toVec4`; the embedding takes that vector directly as input.
The NaN/Infinity loop is the identity over `ℚ`; the final clamps are kept. -/
def fromColour (P : Prims) (vec4 : RGBA) : HSL :=
  ⟨mathRange (fromVec4 P vec4).H 0 360,
   mathRange (fromVec4 P vec4).S 0 100,
   mathRange (fromVec4 P vec4).L 0 100⟩

/-- `toLinear` (HSLuv.js lines 674-676). -/
def toLinear (P : Prims) (c : ℚ) : ℚ :=
  if c ≤ 0.04045 then c / 12.92 else P.powQ ((c + 0.055) / 1.055) 2.4

/-- `getLuminance` (HSLuv.js lines 679-688): Rec. 709 relative luminance
of an HSLuv colour. -/
def getLuminance (P : Prims) (c : HSL) : ℚ :=
  0.2126 * toLinear P (toVec4 P c).r + 0.7152 * toLinear P (toVec4 P c).g +
    0.0722 * toLinear P (toVec4 P c).b

/-- `chooseHighContrastBW` (HSLuv.js lines 702-707). -/
def chooseHighContrastBW (P : Prims) (c : HSL) : HSL :=
  if getLuminance P c > 0.5 then ⟨0, 0, 0⟩ else ⟨0, 0, 100⟩

/-- Truncation toward zero, as used by the host `Math.fmod`. -/
def truncQ (q : ℚ) : ℤ := if 0 ≤ q then ⌊q⌋ else ⌈q⌉

/-- HISE `Math.fmod(x, y)`: `x - y * trunc (x / y)`. -/
def fmodQ (x y : ℚ) : ℚ := x - y * (truncQ (x / y) : ℚ)

/-- The palette of HSLuv triples built by `generateButtonPalette`
(`src/unnamed/part_000` lines 59-113), before each entry is packed back to
a uint32 by the external `HSLuv.toColour`.  `normal` is the unmodified
base triple. -/
structure PaletteHSL where
  normal : HSL
  hover : HSL
  clicked : HSL
  disabled : HSL
  focus : HSL
  focusOutline : HSL
deriving DecidableEq

/-- The HSLuv-space arithmetic of `generateButtonPalette`
(`src/unnamed/part_000` lines 66-103), as a function of the `primary`
triple returned by `HSLuv.fromColour(baseColour)`.  Each entry starts as a
clone of `primary` and then has the listed components overwritten, exactly
as in the source. -/
def generateButtonPaletteHSL (primary : HSL) : PaletteHSL :=
  let hover : HSL :=
    ⟨primary.H, primary.S, if primary.L > 80 then primary.L - 10 else primary.L + 10⟩
  let clicked : HSL :=
    ⟨primary.H, primary.S, if primary.L < 20 then primary.L + 15 else primary.L - 15⟩
  let disabledL0 := primary.L * 0.5 + 25
  let disabledL :=
    if primary.S < 35 ∧ |disabledL0 - primary.L| < 15 then disabledL0 + 20
    else disabledL0
  let disabled : HSL := ⟨primary.H, 20, disabledL⟩
  let focus : HSL := ⟨hover.H, hover.S, hover.L⟩
  let focusOutline : HSL :=
    ⟨fmodQ (focus.H + 180) 360, 100, if primary.L > 60 then 20 else 90⟩
  ⟨primary, hover, clicked, disabled, focus, focusOutline⟩

/-- The `stateFlags` record of the demo script
(`src/unnamed/part_000` lines 207-209). -/
structure InteractionFlags where
  disabled : Bool
  clicked : Bool
  hover : Bool
  focus : Bool
  forceFocus : Bool
deriving DecidableEq

/-- `resolveButtonState` (`src/unnamed/part_000` lines 292-301). -/
def resolveButtonState (f : InteractionFlags) : String :=
  if f.disabled then "disabled"
  else if f.forceFocus then "focus"
  else if f.clicked then "clicked"
  else if f.hover then "hover"
  else if f.focus then "focus"
  else "normal"

/-- A concrete instantiation of the abstract primitives, used to evaluate
the embedding at specific inputs.  It satisfies the `atan` range and sign
hypotheses used by the theorems below. -/
def dummyPrims : Prims :=
  ⟨fun _ => 0, fun _ => 0, fun _ => 0, fun _ => 0, fun _ _ => 0⟩

/-- Range facts about `P.atanQ` that the genuine `Math.atan` satisfies:
its absolute value stays below `1.5707964`, a rational upper bound of
`pi / 2`. -/
def AtanBounded (P : Prims) : Prop := ∀ t : ℚ, |P.atanQ t| ≤ 1.5707964

/-- Sign fact about `P.atanQ` that the genuine `Math.atan` satisfies:
it maps non-negative inputs to non-negative outputs and non-positive
inputs to non-positive outputs. -/
def AtanSigned (P : Prims) : Prop :=
  ∀ t : ℚ, (0 ≤ t → 0 ≤ P.atanQ t) ∧ (t ≤ 0 → P.atanQ t ≤ 0)

lemma dummyPrims_atanBounded : AtanBounded dummyPrims := by
  intro t
  norm_num [AtanBounded, dummyPrims]

lemma dummyPrims_atanSigned : AtanSigned dummyPrims := by
  intro t
  constructor <;> intro _ <;> simp [dummyPrims]

lemma mathRange_mem (v lo hi : ℚ) (h : lo ≤ hi) :
    lo ≤ mathRange v lo hi ∧ mathRange v lo hi ≤ hi := by
  unfold mathRange
  split_ifs <;> constructor <;> linarith

lemma mathRange_lt_hi (v lo hi : ℚ) (hv : v < hi) (hlo : lo < hi) :
    mathRange v lo hi < hi := by
  unfold mathRange
  split_ifs <;> linarith

lemma mathRange_nonneg (v hi : ℚ) (h : 0 ≤ hi) : 0 ≤ mathRange v 0 hi :=
  (mathRange_mem v 0 hi h).1

lemma clamp01_mem (v : ℚ) : 0 ≤ clamp01 v ∧ clamp01 v ≤ 1 := by
  unfold clamp01
  split_ifs <;> constructor <;> linarith

/-- The denominator of the ray-intersection length in `maxChromaForLH`. -/
def rayDen (P : Prims) (hRad : ℚ) (line : ℚ × ℚ) : ℚ :=
  P.sinQ hRad - line.1 * P.cosQ hRad

lemma chromaStep_eq (P : Prims) (hRad acc : ℚ) (line : ℚ × ℚ) :
    chromaStep P hRad acc line =
      if rayDen P hRad line = 0 then acc
      else if 0 ≤ line.2 / rayDen P hRad line ∧ line.2 / rayDen P hRad line < acc then
        line.2 / rayDen P hRad line
      else acc := rfl

lemma chromaStep_le (P : Prims) (hRad acc : ℚ) (line : ℚ × ℚ) :
    chromaStep P hRad acc line ≤ acc := by
  rw [chromaStep_eq]
  split_ifs with h1 h2
  · exact le_refl acc
  · exact le_of_lt h2.2
  · exact le_refl acc

lemma chromaStep_nonneg (P : Prims) (hRad acc : ℚ) (line : ℚ × ℚ) (h : 0 ≤ acc) :
    0 ≤ chromaStep P hRad acc line := by
  rw [chromaStep_eq]
  split_ifs with h1 h2
  · exact h
  · exact h2.1
  · exact h

lemma chromaStep_cases (P : Prims) (hRad acc : ℚ) (line : ℚ × ℚ) :
    chromaStep P hRad acc line = acc ∨
      (rayDen P hRad line ≠ 0 ∧
        chromaStep P hRad acc line = line.2 / rayDen P hRad line) := by
  rw [chromaStep_eq]
  split_ifs with h1 h2
  · exact Or.inl rfl
  · exact Or.inr ⟨h1, rfl⟩
  · exact Or.inl rfl

lemma chromaStep_le_len (P : Prims) (hRad acc : ℚ) (line : ℚ × ℚ)
    (hden : rayDen P hRad line ≠ 0) (hlen : 0 ≤ line.2 / rayDen P hRad line) :
    chromaStep P hRad acc line ≤ line.2 / rayDen P hRad line := by
  rw [chromaStep_eq, if_neg hden]
  split_ifs with h2
  · exact le_refl _
  · rw [not_and_or, not_lt] at h2
    rcases h2 with h2 | h2
    · exact absurd hlen h2
    · exact h2

lemma foldl_chroma_le (P : Prims) (hRad : ℚ) :
    ∀ (l : List (ℚ × ℚ)) (acc : ℚ), l.foldl (chromaStep P hRad) acc ≤ acc := by
  intro l
  induction l with
  | nil => intro acc; exact le_refl acc
  | cons x xs ih =>
    intro acc
    calc (x :: xs).foldl (chromaStep P hRad) acc
        = xs.foldl (chromaStep P hRad) (chromaStep P hRad acc x) := rfl
      _ ≤ chromaStep P hRad acc x := ih _
      _ ≤ acc := chromaStep_le P hRad acc x

lemma foldl_chroma_nonneg (P : Prims) (hRad : ℚ) :
    ∀ (l : List (ℚ × ℚ)) (acc : ℚ), 0 ≤ acc → 0 ≤ l.foldl (chromaStep P hRad) acc := by
  intro l
  induction l with
  | nil => intro acc h; exact h
  | cons x xs ih =>
    intro acc h
    exact ih _ (chromaStep_nonneg P hRad acc x h)

lemma foldl_chroma_min (P : Prims) (hRad : ℚ) :
    ∀ (l : List (ℚ × ℚ)) (acc : ℚ) (line : ℚ × ℚ), line ∈ l →
      rayDen P hRad line ≠ 0 → 0 ≤ line.2 / rayDen P hRad line →
      l.foldl (chromaStep P hRad) acc ≤ line.2 / rayDen P hRad line := by
  intro l
  induction l with
  | nil => intro acc line hmem; exact absurd hmem (List.not_mem_nil line)
  | cons x xs ih =>
    intro acc line hmem hden hlen
    rcases List.mem_cons.mp hmem with hx | hxs
    · subst hx
      calc (line :: xs).foldl (chromaStep P hRad) acc
          = xs.foldl (chromaStep P hRad) (chromaStep P hRad acc line) := rfl
        _ ≤ chromaStep P hRad acc line := foldl_chroma_le P hRad xs _
        _ ≤ line.2 / rayDen P hRad line := chromaStep_le_len P hRad acc line hden hlen
    · exact ih _ line hxs hden hlen

lemma foldl_chroma_cases (P : Prims) (hRad : ℚ) :
    ∀ (l : List (ℚ × ℚ)) (acc : ℚ),
      l.foldl (chromaStep P hRad) acc = acc ∨
        ∃ line ∈ l, rayDen P hRad line ≠ 0 ∧
          l.foldl (chromaStep P hRad) acc = line.2 / rayDen P hRad line := by
  intro l
  induction l with
  | nil => intro acc; exact Or.inl rfl
  | cons x xs ih =>
    intro acc
    have hstep := chromaStep_cases P hRad acc x
    rcases ih (chromaStep P hRad acc x) with h | ⟨line, hmem, hden, heq⟩
    · rcases hstep with h0 | ⟨hden, h0⟩
      · exact Or.inl (by rw [List.foldl_cons, h, h0])
      · exact Or.inr ⟨x, List.mem_cons_self x xs, hden, by rw [List.foldl_cons, h, h0]⟩
    · exact Or.inr ⟨line, List.mem_cons_of_mem x hmem, hden, by rw [List.foldl_cons, heq]⟩

/-- C2: at the lightness extremes -- `L` within `EPS = 1e-10` of `0` or `L`
above `99.99999` -- both conversion directions short-circuit: `hsluvToLch`
returns chroma exactly `0` with the given `H` preserved, and `lchToHsluv`
returns saturation exactly `0` with the given `H` preserved, for every `H`,
`S` and `C`.  The result is a fixed tuple, independent of the gamut solver
and of every abstract primitive. -/
theorem extremes_short_circuit (P : Prims) (H S L C : ℚ)
    (h : |L| < EPS ∨ L > 99.99999) :
    hsluvToLch P ⟨H, S, L⟩ = ⟨L, 0, H⟩ ∧ lchToHsluv P ⟨L, C, H⟩ = ⟨H, 0, L⟩ := by
  have hL : L < EPS ∨ L > 99.99999 := by
    rcases h with h | h
    · exact Or.inl (lt_of_abs_lt h)
    · exact Or.inr h
  constructor
  · simp only [hsluvToLch, sanitize]
    rw [if_pos hL]
  · simp only [lchToHsluv]
    rw [if_pos hL]

theorem extremes_short_circuit_witness :
    hsluvToLch dummyPrims ⟨33, 50, 0⟩ = ⟨0, 0, 33⟩ ∧
      lchToHsluv dummyPrims ⟨0, 7, 33⟩ = ⟨33, 0, 0⟩ :=
  extremes_short_circuit dummyPrims 33 50 0 7 (Or.inl (by norm_num [EPS]))

/-- C3: `maxChromaForLH` always returns a non-negative value: it is the
minimum of the non-negative ray-intersection lengths
`intercept / (sin hRad - slope * cos hRad)` over the valid boundary lines,
capped by the sentinel `1e10`, to which it evaluates when no line
contributes; consequently, at `L = 0` and `L = 100`, `hsluvToLch` yields
chroma exactly `0` for every `S`. -/
theorem maxChroma_nonneg_min_sentinel (P : Prims) (L H S : ℚ) :
    0 ≤ maxChromaForLH P L H ∧
    maxChromaForLH P L H ≤ 10 ^ 10 ∧
    (maxChromaForLH P L H = 10 ^ 10 ∨
      ∃ line ∈ getBounds L, rayDen P (toRadians H) line ≠ 0 ∧
        maxChromaForLH P L H = line.2 / rayDen P (toRadians H) line) ∧
    (∀ line ∈ getBounds L, rayDen P (toRadians H) line ≠ 0 →
      0 ≤ line.2 / rayDen P (toRadians H) line →
      maxChromaForLH P L H ≤ line.2 / rayDen P (toRadians H) line) ∧
    (hsluvToLch P ⟨H, S, 0⟩).C = 0 ∧ (hsluvToLch P ⟨H, S, 100⟩).C = 0 := by
  refine ⟨?_, ?_, ?_, ?_, ?_, ?_⟩
  · exact foldl_chroma_nonneg P (toRadians H) (getBounds L) _ (by norm_num)
  · exact foldl_chroma_le P (toRadians H) (getBounds L) _
  · exact foldl_chroma_cases P (toRadians H) (getBounds L) _
  · intro line hmem hden hlen
    exact foldl_chroma_min P (toRadians H) (getBounds L) _ line hmem hden hlen
  · simp only [hsluvToLch, sanitize]
    rw [if_pos (Or.inl (by norm_num [EPS]))]
  · simp only [hsluvToLch, sanitize]
    rw [if_pos (Or.inr (by norm_num))]

theorem maxChroma_nonneg_min_sentinel_witness :
    0 ≤ maxChromaForLH dummyPrims 50 30 ∧
      (hsluvToLch dummyPrims ⟨30, 40, 0⟩).C = 0 ∧
      (hsluvToLch dummyPrims ⟨30, 40, 100⟩).C = 0 :=
  ⟨(maxChroma_nonneg_min_sentinel dummyPrims 50 30 40).1,
   (maxChroma_nonneg_min_sentinel dummyPrims 50 30 40).2.2.2.2.1,
   (maxChroma_nonneg_min_sentinel dummyPrims 50 30 40).2.2.2.2.2⟩

lemma myAtan2_abs_le (P : Prims) (hb : AtanBounded P) (hs : AtanSigned P) (y x : ℚ) :
    |myAtan2 P y x| ≤ PI := by
  have hPIb : (1.5707964 : ℚ) ≤ PI := by norm_num [PI]
  have hPIpos : (0 : ℚ) < PI := by norm_num [PI]
  simp only [myAtan2, sanitize]
  split_ifs with h1 h2 h3 h4 h5
  · have h := abs_le.mp (hb (y / x))
    rw [abs_le]
    constructor <;> linarith [h.1, h.2]
  · have ht : y / x ≤ 0 := div_nonpos_iff.mpr (Or.inl ⟨h2.2, h2.1.le⟩)
    have ha1 := (hs (y / x)).2 ht
    have ha2 := abs_le.mp (hb (y / x))
    rw [abs_le]
    constructor <;> linarith [ha2.1, ha2.2]
  · have ht : 0 < y / x := div_pos_iff.mpr (Or.inr ⟨h3.2, h3.1⟩)
    have ha1 := (hs (y / x)).1 ht.le
    have ha2 := abs_le.mp (hb (y / x))
    rw [abs_le]
    constructor <;> linarith [ha2.1, ha2.2]
  · rw [abs_le]
    constructor <;> linarith
  · rw [abs_le]
    constructor <;> linarith
  · rw [abs_le]
    constructor <;> linarith

lemma luvToLch_H_mem (P : Prims) (hb : AtanBounded P) (hs : AtanSigned P) (c : LUV) :
    0 ≤ (luvToLch P c).H ∧ (luvToLch P c).H < 360 := by
  have h := abs_le.mp (myAtan2_abs_le P hb hs c.v c.u)
  simp only [luvToLch, sanitize, toDegrees]
  have hdeg1 : myAtan2 P c.v c.u * 180 / PI ≤ 180 := by
    rw [PI] at h ⊢
    rcases h with ⟨hl, hr⟩
    rw [div_le_iff₀ (by norm_num)]
    nlinarith
  have hdeg2 : -180 ≤ myAtan2 P c.v c.u * 180 / PI := by
    rw [PI] at h ⊢
    rcases h with ⟨hl, hr⟩
    rw [le_div_iff₀ (by norm_num)]
    nlinarith
  split_ifs with hneg <;> constructor <;> linarith

lemma lchToHsluv_H_eq (P : Prims) (c : LCH) : (lchToHsluv P c).H = c.H := by
  simp only [lchToHsluv]
  split_ifs <;> rfl

lemma lchToHsluv_L_eq (P : Prims) (c : LCH) : (lchToHsluv P c).L = c.L := by
  simp only [lchToHsluv]
  split_ifs <;> rfl

lemma lchToHsluv_S_mem (P : Prims) (c : LCH) :
    0 ≤ (lchToHsluv P c).S ∧ (lchToHsluv P c).S ≤ 100 := by
  simp only [lchToHsluv]
  split_ifs with h1 h2
  · exact ⟨le_refl 0, by norm_num⟩
  · exact ⟨le_refl 0, by norm_num⟩
  · exact mathRange_mem _ 0 100 (by norm_num)

lemma luvToLch_L_eq (P : Prims) (c : LUV) : (luvToLch P c).L = c.L := rfl

lemma rgbToHsluv_H_mem (P : Prims) (hb : AtanBounded P) (hs : AtanSigned P) (c : RGB) :
    0 ≤ (rgbToHsluv P c).H ∧ (rgbToHsluv P c).H < 360 := by
  have h := luvToLch_H_mem P hb hs (xyzToLuv P (rgbToXyz P c))
  simp only [rgbToHsluv, lchToHsluv_H_eq]
  exact h

/-- C5: over the exact-arithmetic embedding the public conversion entry
points are total functions (non-finite intermediates cannot arise;
`sanitize` is the identity) and their outputs are range-clamped: the
forward direction `hsluvToRgb` returns device channels in `[0, 1]` for
every input, and the backward direction `fromColour` returns `H` in
`[0, 360)` and `S`, `L` in `[0, 100]` for every input vector, however
malformed, assuming only the `atan` range and sign facts. -/
theorem conversions_clamped (P : Prims) (hb : AtanBounded P) (hs : AtanSigned P)
    (c : HSL) (vec4 : RGBA) :
    (0 ≤ (hsluvToRgb P c).r ∧ (hsluvToRgb P c).r ≤ 1 ∧
     0 ≤ (hsluvToRgb P c).g ∧ (hsluvToRgb P c).g ≤ 1 ∧
     0 ≤ (hsluvToRgb P c).b ∧ (hsluvToRgb P c).b ≤ 1) ∧
    (0 ≤ (fromColour P vec4).H ∧ (fromColour P vec4).H < 360 ∧
     0 ≤ (fromColour P vec4).S ∧ (fromColour P vec4).S ≤ 100 ∧
     0 ≤ (fromColour P vec4).L ∧ (fromColour P vec4).L ≤ 100) := by
  constructor
  · simp only [hsluvToRgb, xyzToRgb]
    refine ⟨(clamp01_mem _).1, (clamp01_mem _).2, (clamp01_mem _).1, (clamp01_mem _).2,
      (clamp01_mem _).1, (clamp01_mem _).2⟩
  · have hH := rgbToHsluv_H_mem P hb hs ⟨sanitize vec4.r, sanitize vec4.g, sanitize vec4.b⟩
    simp only [fromColour, fromVec4]
    refine ⟨(mathRange_mem _ 0 360 (by norm_num)).1, mathRange_lt_hi _ 0 360 hH.2 (by norm_num),
      (mathRange_mem _ 0 100 (by norm_num)).1, (mathRange_mem _ 0 100 (by norm_num)).2,
      (mathRange_mem _ 0 100 (by norm_num)).1, (mathRange_mem _ 0 100 (by norm_num)).2⟩

theorem conversions_clamped_witness :
    (0 ≤ (hsluvToRgb dummyPrims ⟨500, -20, 150⟩).r ∧
     (hsluvToRgb dummyPrims ⟨500, -20, 150⟩).r ≤ 1 ∧
     0 ≤ (hsluvToRgb dummyPrims ⟨500, -20, 150⟩).g ∧
     (hsluvToRgb dummyPrims ⟨500, -20, 150⟩).g ≤ 1 ∧
     0 ≤ (hsluvToRgb dummyPrims ⟨500, -20, 150⟩).b ∧
     (hsluvToRgb dummyPrims ⟨500, -20, 150⟩).b ≤ 1) ∧
    (0 ≤ (fromColour dummyPrims ⟨2, -3, 0.5, 1⟩).H ∧
     (fromColour dummyPrims ⟨2, -3, 0.5, 1⟩).H < 360 ∧
     0 ≤ (fromColour dummyPrims ⟨2, -3, 0.5, 1⟩).S ∧
     (fromColour dummyPrims ⟨2, -3, 0.5, 1⟩).S ≤ 100 ∧
     0 ≤ (fromColour dummyPrims ⟨2, -3, 0.5, 1⟩).L ∧
     (fromColour dummyPrims ⟨2, -3, 0.5, 1⟩).L ≤ 100) :=
  conversions_clamped dummyPrims dummyPrims_atanBounded dummyPrims_atanSigned
    ⟨500, -20, 150⟩ ⟨2, -3, 0.5, 1⟩

/-- C7: `chooseHighContrastBW` returns exactly pure black `(0,0,0)` when the
input's relative luminance exceeds `0.5` and exactly pure white `(0,0,100)`
otherwise -- never a third value -- and its result depends only on the
input's relative luminance. -/
theorem highContrastText_binary (P : Prims) (c c1 c2 : HSL) :
    ((0.5 < getLuminance P c ∧ chooseHighContrastBW P c = ⟨0, 0, 0⟩) ∨
      (getLuminance P c ≤ 0.5 ∧ chooseHighContrastBW P c = ⟨0, 0, 100⟩)) ∧
    (getLuminance P c1 = getLuminance P c2 →
      chooseHighContrastBW P c1 = chooseHighContrastBW P c2) := by
  constructor
  · by_cases h : getLuminance P c > 0.5
    · exact Or.inl ⟨h, by simp only [chooseHighContrastBW, if_pos h]⟩
    · refine Or.inr ⟨not_lt.mp h, by simp only [chooseHighContrastBW, if_neg h]⟩
  · intro h
    simp only [chooseHighContrastBW, h]

theorem highContrastText_binary_witness :
    ((0.5 < getLuminance dummyPrims ⟨0, 0, 50⟩ ∧
        chooseHighContrastBW dummyPrims ⟨0, 0, 50⟩ = ⟨0, 0, 0⟩) ∨
      (getLuminance dummyPrims ⟨0, 0, 50⟩ ≤ 0.5 ∧
        chooseHighContrastBW dummyPrims ⟨0, 0, 50⟩ = ⟨0, 0, 100⟩)) ∧
    (getLuminance dummyPrims ⟨0, 0, 50⟩ = getLuminance dummyPrims ⟨0, 0, 50⟩ →
      chooseHighContrastBW dummyPrims ⟨0, 0, 50⟩ =
        chooseHighContrastBW dummyPrims ⟨0, 0, 50⟩) :=
  highContrastText_binary dummyPrims ⟨0, 0, 50⟩ ⟨0, 0, 50⟩ ⟨0, 0, 50⟩

/-- C8: `resolveButtonState` follows the fixed priority order
disabled > forceFocus > clicked > hover > focus > normal: the first set
flag decides the state (`forceFocus` and `focus` both yield the focus
state), and `"normal"` is returned exactly when no flag is set.  The
result is a pure function of the flag record. -/
theorem resolveButtonState_priority (f : InteractionFlags) :
    (f.disabled = true → resolveButtonState f = "disabled") ∧
    (f.disabled = false → f.forceFocus = true → resolveButtonState f = "focus") ∧
    (f.disabled = false → f.forceFocus = false → f.clicked = true →
      resolveButtonState f = "clicked") ∧
    (f.disabled = false → f.forceFocus = false → f.clicked = false → f.hover = true →
      resolveButtonState f = "hover") ∧
    (f.disabled = false → f.forceFocus = false → f.clicked = false → f.hover = false →
      f.focus = true → resolveButtonState f = "focus") ∧
    (resolveButtonState f = "normal" ↔
      f.disabled = false ∧ f.forceFocus = false ∧ f.clicked = false ∧
        f.hover = false ∧ f.focus = false) := by
  obtain ⟨d, c, h, fo, ff⟩ := f
  cases d <;> cases c <;> cases h <;> cases fo <;> cases ff <;>
    simp [resolveButtonState]

theorem resolveButtonState_priority_witness :
    resolveButtonState ⟨false, true, true, false, true⟩ = "focus" :=
  (resolveButtonState_priority ⟨false, true, true, false, true⟩).2.1 rfl rfl

lemma fmodQ_shift (H : ℚ) (h0 : 0 ≤ H) (h1 : H ≤ 360) :
    fmodQ (H + 180) 360 = if H + 180 < 360 then H + 180 else H + 180 - 360 := by
  unfold fmodQ truncQ
  have hq : (0 : ℚ) ≤ (H + 180) / 360 := by positivity
  rw [if_pos hq]
  split_ifs with hlt
  · have hfl : ⌊(H + 180) / 360⌋ = 0 := by
      rw [Int.floor_eq_zero_iff]
      constructor
      · exact hq
      · rw [div_lt_one (by norm_num)]
        linarith
    rw [hfl]
    push_cast
    ring
  · have hfl : ⌊(H + 180) / 360⌋ = 1 := by
      rw [Int.floor_eq_iff]
      constructor
      · rw [le_div_iff₀ (by norm_num)]
        push_cast
        linarith
      · rw [div_lt_iff₀ (by norm_num)]
        push_cast
        linarith
    rw [hfl]
    push_cast
    ring

/-- C6: the focus-outline entry has hue `(focus-background hue + 180) mod
360`, saturation exactly `100`, and lightness exactly `20` when the base
lightness exceeds `60`, else exactly `90`; in particular base lightness
`60` gives outline lightness `90` and base lightness `60.01` gives `20`. -/
theorem focusOutline_rule (H S L : ℚ) (h0 : 0 ≤ H) (h1 : H ≤ 360) :
    ((generateButtonPaletteHSL ⟨H, S, L⟩).focusOutline.H =
      if (generateButtonPaletteHSL ⟨H, S, L⟩).focus.H + 180 < 360 then
        (generateButtonPaletteHSL ⟨H, S, L⟩).focus.H + 180
      else (generateButtonPaletteHSL ⟨H, S, L⟩).focus.H + 180 - 360) ∧
    (generateButtonPaletteHSL ⟨H, S, L⟩).focusOutline.S = 100 ∧
    ((generateButtonPaletteHSL ⟨H, S, L⟩).focusOutline.L =
      if L > 60 then 20 else 90) ∧
    (generateButtonPaletteHSL ⟨H, S, 60⟩).focusOutline.L = 90 ∧
    (generateButtonPaletteHSL ⟨H, S, 60.01⟩).focusOutline.L = 20 := by
  refine ⟨?_, rfl, rfl, ?_, ?_⟩
  · simp only [generateButtonPaletteHSL]
    exact fmodQ_shift H h0 h1
  · norm_num [generateButtonPaletteHSL]
  · norm_num [generateButtonPaletteHSL]

theorem focusOutline_rule_witness :
    ((generateButtonPaletteHSL ⟨0, 75, 50⟩).focusOutline.H =
      if (generateButtonPaletteHSL ⟨0, 75, 50⟩).focus.H + 180 < 360 then
        (generateButtonPaletteHSL ⟨0, 75, 50⟩).focus.H + 180
      else (generateButtonPaletteHSL ⟨0, 75, 50⟩).focus.H + 180 - 360) ∧
    (generateButtonPaletteHSL ⟨0, 75, 50⟩).focusOutline.S = 100 ∧
    ((generateButtonPaletteHSL ⟨0, 75, 50⟩).focusOutline.L =
      if (50 : ℚ) > 60 then 20 else 90) ∧
    (generateButtonPaletteHSL ⟨0, 75, 60⟩).focusOutline.L = 90 ∧
    (generateButtonPaletteHSL ⟨0, 75, 60.01⟩).focusOutline.L = 20 :=
  focusOutline_rule 0 75 50 (by norm_num) (by norm_num)

/-- C10: for a base triple with lightness in `[0, 100]` (as `fromColour`
guarantees), every palette entry keeps its lightness in `[0, 100]` with no
re-clamping: hover and focus lightness lie in `[10, 90]`, clicked in
`[5, 85]`, disabled in `[25, 95]`, and the focus-outline lightness is
exactly `20` or `90`. -/
theorem palette_lightness_ranges (H S L : ℚ) (h0 : 0 ≤ L) (h1 : L ≤ 100) :
    (generateButtonPaletteHSL ⟨H, S, L⟩).normal.L = L ∧
    10 ≤ (generateButtonPaletteHSL ⟨H, S, L⟩).hover.L ∧
    (generateButtonPaletteHSL ⟨H, S, L⟩).hover.L ≤ 90 ∧
    (generateButtonPaletteHSL ⟨H, S, L⟩).focus.L =
      (generateButtonPaletteHSL ⟨H, S, L⟩).hover.L ∧
    5 ≤ (generateButtonPaletteHSL ⟨H, S, L⟩).clicked.L ∧
    (generateButtonPaletteHSL ⟨H, S, L⟩).clicked.L ≤ 85 ∧
    25 ≤ (generateButtonPaletteHSL ⟨H, S, L⟩).disabled.L ∧
    (generateButtonPaletteHSL ⟨H, S, L⟩).disabled.L ≤ 95 ∧
    ((generateButtonPaletteHSL ⟨H, S, L⟩).focusOutline.L = 20 ∨
      (generateButtonPaletteHSL ⟨H, S, L⟩).focusOutline.L = 90) := by
  refine ⟨rfl, ?_, ?_, rfl, ?_, ?_, ?_, ?_, ?_⟩ <;>
    · simp only [generateButtonPaletteHSL]
      split_ifs <;> first | linarith | (left; rfl) | (right; rfl)

theorem palette_lightness_ranges_witness :
    (generateButtonPaletteHSL ⟨0, 75, 50⟩).normal.L = 50 ∧
    10 ≤ (generateButtonPaletteHSL ⟨0, 75, 50⟩).hover.L ∧
    (generateButtonPaletteHSL ⟨0, 75, 50⟩).hover.L ≤ 90 ∧
    (generateButtonPaletteHSL ⟨0, 75, 50⟩).focus.L =
      (generateButtonPaletteHSL ⟨0, 75, 50⟩).hover.L ∧
    5 ≤ (generateButtonPaletteHSL ⟨0, 75, 50⟩).clicked.L ∧
    (generateButtonPaletteHSL ⟨0, 75, 50⟩).clicked.L ≤ 85 ∧
    25 ≤ (generateButtonPaletteHSL ⟨0, 75, 50⟩).disabled.L ∧
    (generateButtonPaletteHSL ⟨0, 75, 50⟩).disabled.L ≤ 95 ∧
    ((generateButtonPaletteHSL ⟨0, 75, 50⟩).focusOutline.L = 20 ∨
      (generateButtonPaletteHSL ⟨0, 75, 50⟩).focusOutline.L = 90) :=
  palette_lightness_ranges 0 75 50 (by norm_num) (by norm_num)

/-- C4 counterexample: for the base triple `(H = 0, S = 20, L = 70)` --
saturation below `35` -- the disabled-state lightness after the
low-saturation fix is `80`, so `|disabled.L - base.L| = 10 < 15`: the
claimed guarantee `|disabled.L - base.L| ≥ 15` fails. -/
theorem disabled_distinctness_cex :
    (20 : ℚ) < 35 ∧
      |(generateButtonPaletteHSL ⟨0, 20, 70⟩).disabled.L - 70| < 15 := by
  norm_num [generateButtonPaletteHSL]

/-- C4 amended: for a base with saturation below `35`, the low-saturation
fix guarantees `|disabled.L - base.L| > 5` always, and `≥ 15` exactly when
the base lightness is at most `60` or at least `80`; for base lightness
strictly between `60` and `80` the corrected gap stays below `15`. -/
theorem disabled_distinctness_amended (H S L : ℚ) (hS : S < 35) :
    5 < |(generateButtonPaletteHSL ⟨H, S, L⟩).disabled.L - L| ∧
      (15 ≤ |(generateButtonPaletteHSL ⟨H, S, L⟩).disabled.L - L| ↔
        (L ≤ 60 ∨ 80 ≤ L)) := by
  simp only [generateButtonPaletteHSL]
  split_ifs with h
  · have habs := abs_lt.mp h.2
    have hpos : (0 : ℚ) < L * 0.5 + 25 + 20 - L := by linarith [habs.2]
    constructor
    · rw [lt_abs]
      left
      linarith [habs.1, habs.2]
    · rw [abs_of_pos hpos]
      constructor
      · intro h15
        left
        linarith
      · intro hL
        rcases hL with hL | hL
        · linarith
        · exfalso
          linarith [habs.2]
  · have habs : 15 ≤ |L * 0.5 + 25 - L| := by
      by_contra hcon
      push_neg at hcon
      exact h ⟨hS, hcon⟩
    constructor
    · linarith [habs]
    · constructor
      · intro _
        rcases le_abs.mp habs with h1 | h1
        · left
          linarith
        · right
          linarith
      · intro _
        exact habs

theorem disabled_distinctness_amended_witness :
    5 < |(generateButtonPaletteHSL ⟨0, 20, 50⟩).disabled.L - 50| ∧
      (15 ≤ |(generateButtonPaletteHSL ⟨0, 20, 50⟩).disabled.L - 50| ↔
        ((50 : ℚ) ≤ 60 ∨ (80 : ℚ) ≤ 50)) :=
  disabled_distinctness_amended 0 20 50 (by norm_num)

lemma srgbInverseCompanding_linear (P : Prims) (c : ℚ) (h1 : 0 ≤ c) (h2 : c ≤ 0.04045) :
    srgbInverseCompanding P c = c / 12.92 := by
  simp only [srgbInverseCompanding, mathRange, sanitize]
  rw [if_neg (not_lt.mpr h1), if_neg (not_lt.mpr (by linarith : c ≤ 1)), if_pos h2]

lemma rgbToXyz_unfold (P : Prims) (a : ℚ) :
    rgbToXyz P ⟨a, a, a⟩ =
      ⟨srgbInverseCompanding P a * 0.4124564 + srgbInverseCompanding P a * 0.3575761 +
         srgbInverseCompanding P a * 0.1804375,
       srgbInverseCompanding P a * 0.2126729 + srgbInverseCompanding P a * 0.7151522 +
         srgbInverseCompanding P a * 0.0721750,
       srgbInverseCompanding P a * 0.0193339 + srgbInverseCompanding P a * 0.1191920 +
         srgbInverseCompanding P a * 0.9503041⟩ := by
  simp only [rgbToXyz, sanitize]

lemma xyzToLuv_low (P : Prims) (x y z : ℚ) (hden : ¬(|x + 15 * y + 3 * z| < EPS))
    (hYr : ¬(y / REF_Y > E)) :
    xyzToLuv P ⟨x, y, z⟩ =
      ⟨K * (y / REF_Y),
       13 * (K * (y / REF_Y)) *
         (4 * x / (x + 15 * y + 3 * z) - 4 * REF_X / (REF_X + 15 * REF_Y + 3 * REF_Z)),
       13 * (K * (y / REF_Y)) *
         (9 * y / (x + 15 * y + 3 * z) - 9 * REF_Y / (REF_X + 15 * REF_Y + 3 * REF_Z))⟩ := by
  simp only [xyzToLuv, sanitize]
  rw [if_neg hden, if_neg hYr]

lemma rgbToXyz_gray (P : Prims) :
    rgbToXyz P ⟨0.04, 0.04, 0.04⟩ =
      ⟨5591 / 1900000, 10000001 / 3230000000, 108883 / 32300000⟩ := by
  rw [rgbToXyz_unfold, srgbInverseCompanding_linear P 0.04 (by norm_num) (by norm_num)]
  norm_num [XYZ.mk.injEq]

lemma xyzToLuv_gray (P : Prims) :
    xyzToLuv P (rgbToXyz P ⟨0.04, 0.04, 0.04⟩) =
      ⟨45164819326481481 / 16150000000000000,
       -(895285789938178222779 / 1594668188380400000000000000),
       3165286032857801632923 / 8471674750770875000000000000⟩ := by
  have hden :
      ¬(|(5591 / 1900000 : ℚ) + 15 * (10000001 / 3230000000) + 3 * (108883 / 32300000)| <
        EPS) := by
    rw [abs_of_nonneg (by norm_num)]
    norm_num [EPS]
  rw [rgbToXyz_gray, xyzToLuv_low P _ _ _ hden (by norm_num [E, REF_Y])]
  norm_num [LUV.mk.injEq, K, REF_X, REF_Y, REF_Z]

lemma myAtan2_second_quadrant (P : Prims) (y x : ℚ) (hx : x < 0) (hy : 0 ≤ y) :
    myAtan2 P y x = P.atanQ (y / x) + PI := by
  simp only [myAtan2, sanitize]
  rw [if_neg (not_lt.mpr hx.le), if_pos ⟨hx, hy⟩]

lemma luvToLch_H_second_quadrant (P : Prims) (hb : AtanBounded P) (hs : AtanSigned P)
    (c : LUV) (hu : c.u < 0) (hv : 0 < c.v) :
    89 ≤ (luvToLch P c).H ∧ (luvToLch P c).H ≤ 180 := by
  have ht : c.v / c.u ≤ 0 := div_nonpos_iff.mpr (Or.inl ⟨hv.le, hu.le⟩)
  have ha1 := (hs (c.v / c.u)).2 ht
  have ha2 := (abs_le.mp (hb (c.v / c.u))).1
  have hP1 : 89 ≤ (P.atanQ (c.v / c.u) + PI) * 180 / PI := by
    simp only [PI]
    rw [le_div_iff₀ (by norm_num)]
    linarith
  have hP2 : (P.atanQ (c.v / c.u) + PI) * 180 / PI ≤ 180 := by
    simp only [PI]
    rw [div_le_iff₀ (by norm_num)]
    linarith
  have hA := myAtan2_second_quadrant P c.v c.u hu hv.le
  have hnn : ¬((P.atanQ (c.v / c.u) + PI) * 180 / PI < 0) := not_lt.mpr (by linarith)
  have hH : (luvToLch P c).H = (P.atanQ (c.v / c.u) + PI) * 180 / PI := by
    simp only [luvToLch, sanitize, toDegrees, hA]
    rw [if_neg hnn]
  rw [hH]
  exact ⟨hP1, hP2⟩

/-- C9 counterexample: at the achromatic input `r = g = b = 0.04`, whose
lightness (about `2.8`) is far from the extremes, the Luv coordinates are
not `0`: `u` is strictly negative and `v` strictly positive (the forward
RGB-to-XYZ matrix rows do not sum exactly to the reference-white values),
and the returned hue is `180`, not `0`, under the concrete primitive
instantiation. -/
theorem achromatic_residual_cex :
    (xyzToLuv dummyPrims (rgbToXyz dummyPrims ⟨0.04, 0.04, 0.04⟩)).u ≠ 0 ∧
    (xyzToLuv dummyPrims (rgbToXyz dummyPrims ⟨0.04, 0.04, 0.04⟩)).u < 0 ∧
    0 < (xyzToLuv dummyPrims (rgbToXyz dummyPrims ⟨0.04, 0.04, 0.04⟩)).v ∧
    EPS ≤ (xyzToLuv dummyPrims (rgbToXyz dummyPrims ⟨0.04, 0.04, 0.04⟩)).L ∧
    (xyzToLuv dummyPrims (rgbToXyz dummyPrims ⟨0.04, 0.04, 0.04⟩)).L ≤ 99.99999 ∧
    (rgbToHsluv dummyPrims ⟨0.04, 0.04, 0.04⟩).H = 180 := by
  have h1 : (xyzToLuv dummyPrims (rgbToXyz dummyPrims ⟨0.04, 0.04, 0.04⟩)).u < 0 := by
    norm_num [xyzToLuv, rgbToXyz, srgbInverseCompanding, mathRange, sanitize,
      REF_X, REF_Y, REF_Z, EPS, E, K, dummyPrims, abs_of_nonneg, abs_of_nonpos]
  have h2 : 0 < (xyzToLuv dummyPrims (rgbToXyz dummyPrims ⟨0.04, 0.04, 0.04⟩)).v := by
    norm_num [xyzToLuv, rgbToXyz, srgbInverseCompanding, mathRange, sanitize,
      REF_X, REF_Y, REF_Z, EPS, E, K, dummyPrims, abs_of_nonneg, abs_of_nonpos]
  have h3 : EPS ≤ (xyzToLuv dummyPrims (rgbToXyz dummyPrims ⟨0.04, 0.04, 0.04⟩)).L ∧
      (xyzToLuv dummyPrims (rgbToXyz dummyPrims ⟨0.04, 0.04, 0.04⟩)).L ≤ 99.99999 := by
    norm_num [xyzToLuv, rgbToXyz, srgbInverseCompanding, mathRange, sanitize,
      REF_X, REF_Y, REF_Z, EPS, E, K, dummyPrims, abs_of_nonneg, abs_of_nonpos]
  have h4 : (rgbToHsluv dummyPrims ⟨0.04, 0.04, 0.04⟩).H = 180 := by
    norm_num [rgbToHsluv, lchToHsluv, luvToLch, xyzToLuv, rgbToXyz,
      srgbInverseCompanding, mathRange, sanitize, myAtan2, toDegrees,
      maxChromaForLH, getBounds, gamutM, pushLine_safe, chromaStep, toRadians,
      REF_X, REF_Y, REF_Z, EPS, E, K, PI, dummyPrims, abs_of_nonneg, abs_of_nonpos]
  exact ⟨ne_of_lt h1, h1, h2, h3.1, h3.2, h4⟩

/-- C9 amended: for achromatic device inputs, `rgbToHsluv` does not report
hue `0`: at `r = g = b = 0.04` the Luv residuals satisfy `u < 0` and
`v > 0`, so the custom `atan2` takes its second-quadrant branch and the
returned hue lies in `[89, 180]` for every `atan` respecting the range and
sign of the genuine arctangent. -/
theorem achromatic_hue_amended (P : Prims) (hb : AtanBounded P) (hs : AtanSigned P) :
    (xyzToLuv P (rgbToXyz P ⟨0.04, 0.04, 0.04⟩)).u < 0 ∧
    0 < (xyzToLuv P (rgbToXyz P ⟨0.04, 0.04, 0.04⟩)).v ∧
    89 ≤ (rgbToHsluv P ⟨0.04, 0.04, 0.04⟩).H ∧
    (rgbToHsluv P ⟨0.04, 0.04, 0.04⟩).H ≤ 180 := by
  have hu : (xyzToLuv P (rgbToXyz P ⟨0.04, 0.04, 0.04⟩)).u < 0 := by
    rw [xyzToLuv_gray]
    norm_num
  have hv : 0 < (xyzToLuv P (rgbToXyz P ⟨0.04, 0.04, 0.04⟩)).v := by
    rw [xyzToLuv_gray]
    norm_num
  have hq := luvToLch_H_second_quadrant P hb hs
    (xyzToLuv P (rgbToXyz P ⟨0.04, 0.04, 0.04⟩)) hu hv
  have hHeq : (rgbToHsluv P ⟨0.04, 0.04, 0.04⟩).H =
      (luvToLch P (xyzToLuv P (rgbToXyz P ⟨0.04, 0.04, 0.04⟩))).H := by
    simp only [rgbToHsluv, lchToHsluv_H_eq]
  exact ⟨hu, hv, by rw [hHeq]; exact hq.1, by rw [hHeq]; exact hq.2⟩

theorem achromatic_hue_amended_witness :
    (xyzToLuv dummyPrims (rgbToXyz dummyPrims ⟨0.04, 0.04, 0.04⟩)).u < 0 ∧
    0 < (xyzToLuv dummyPrims (rgbToXyz dummyPrims ⟨0.04, 0.04, 0.04⟩)).v ∧
    89 ≤ (rgbToHsluv dummyPrims ⟨0.04, 0.04, 0.04⟩).H ∧
    (rgbToHsluv dummyPrims ⟨0.04, 0.04, 0.04⟩).H ≤ 180 :=
  achromatic_hue_amended dummyPrims dummyPrims_atanBounded dummyPrims_atanSigned

end HSLuv
